import Mathlib

/-!
# Verification of the TwinCountyMediaAgent orchestration core

Shallow embedding of the deduplicated-ingestion, classification, digest-assembly,
delivery and scheduler logic of the repository, together with theorems settling
the specification claims.

Modelling conventions:
* Python strings are Lean `String`s; the Python string methods used by the
  code (`strip`, `lower`, `split`, `startswith`, `rstrip`, `join`) are
  re-implemented structurally below so that they evaluate in the kernel.
* SHA-256 is injective for all practical purposes, so a URL fingerprint is
  modelled by the normalized string that the code hashes: two fingerprints are
  equal exactly when the hashed strings are equal.
* Timestamps (`scraped_at`, clock readings) are modelled as integers.
  Calendar dates/times stay ISO-8601 strings, as in the classifier response;
  the SQL comparisons on `DATE`/`TIME` columns become lexicographic string
  comparisons, which agree with chronological order on ISO-8601 text.
* The database is modelled as in-memory lists of rows; SQL `ON CONFLICT DO
  NOTHING` inserts become conditional appends guarded by the conflict key.
* External collaborator outcomes (AI classifier response, email-delivery call
  results) are inputs of the embedded functions.
-/

namespace TwinCounty

/-! ## String primitives

Kernel-evaluable re-implementations of the string operations the Python code
uses (`str.strip`, `str.lower`, `str.split`, `str.startswith`, `str.rstrip`),
working on the character list of a `String`. -/

/-- Python whitespace stripped by `str.strip()`. -/
def isPySpace (c : Char) : Bool :=
  c = ' ' || c = '\t' || c = '\n' || c = '\x0d' || c = '\x0b' || c = '\x0c'

/-- ASCII lower-casing of one character (`str.lower()`; the URLs involved are
ASCII). -/
def lowerChar (c : Char) : Char :=
  if 'A' ≤ c ∧ c ≤ 'Z' then Char.ofNat (c.toNat + 32) else c

/-- Python `s.lower()`. -/
def strLower (s : String) : String :=
  ⟨s.data.map lowerChar⟩

/-- Python `s.strip()`. -/
def strTrim (s : String) : String :=
  ⟨((s.data.dropWhile isPySpace).reverse.dropWhile isPySpace).reverse⟩

/-- Python `s.startswith(p)`. -/
def strStartsWith (s p : String) : Bool :=
  p.data.isPrefixOf s.data

/-- Split a character list on a separator character. -/
def splitCharAux (sep : Char) : List Char → List Char → List (List Char)
  | [], acc => [acc.reverse]
  | c :: cs, acc =>
    if c = sep then acc.reverse :: splitCharAux sep cs []
    else splitCharAux sep cs (c :: acc)

/-- Python `s.split(sep)` for a one-character separator (the code only splits
on `"?"` and `"&"`). -/
def strSplitOn (s : String) (sep : Char) : List String :=
  (splitCharAux sep s.data []).map fun cs => ⟨cs⟩

/-- Python `sep.join(parts)` for a one-character separator. -/
def strJoin (sep : Char) (parts : List String) : String :=
  ⟨List.intercalate [sep] (parts.map String.data)⟩

/-- Python `"?" in s` for a single character. -/
def strContains (s : String) (c : Char) : Bool :=
  s.data.contains c

/-! ## Deduplication gate (src/scrapers/base_scraper.py, content_repository.py) -/

/-- Python `s.rstrip("/")`: drop every trailing `/`. -/
def rstripSlash (s : String) : String :=
  ⟨(s.data.reverse.dropWhile (· = '/')).reverse⟩

/-- The tracking-parameter prefixes of `BaseScraper.normalize_url`
(src/scrapers/base_scraper.py line 89). -/
def trackingParams : List String :=
  ["utm_", "fbclid", "gclid", "ref", "source"]

/-- Model of `BaseScraper.normalize_url(url, base_url)` (src/scrapers/base_scraper.py
lines 69-102): trim, resolve relative URLs against the base, drop query
parameters whose raw text starts with a tracking prefix (case-sensitive, as in
the source), and strip trailing slashes.  Note the source never lower-cases
here. -/
def normalize_url (url : String) (base_url : String) : String :=
  let url := strTrim url
  let url :=
    if strStartsWith url "/" then rstripSlash base_url ++ url
    else if !(strStartsWith url "http://" || strStartsWith url "https://") then
      rstripSlash base_url ++ "/" ++ url
    else url
  let url :=
    if strContains url '?' then
      -- Python `url.split("?", 1)`
      let parts := strSplitOn url '?'
      let base := parts.headD ""
      let params := strJoin '?' parts.tail
      let clean_params :=
        (strSplitOn params '&').filter fun param =>
          !(trackingParams.any fun t => strStartsWith param t)
      if clean_params ≠ [] then base ++ "?" ++ strJoin '&' clean_params
      else base
    else url
  rstripSlash url

/-- Model of `ScrapedItem.url_hash` (src/scrapers/base_scraper.py lines 27-31):
SHA-256 of `url.strip().lower()`.  The hash itself is modelled by its
(injectively hashed) input string. -/
def url_hash (url : String) : String :=
  strLower (strTrim url)

/-- The fingerprint actually computed for a scraped article: the news/council
scrapers store `normalize_url(raw, base)` as the item URL
(src/scrapers/news_scraper.py lines 99-111) and the orchestrator hashes it via
`ScrapedItem.url_hash` (src/services/scraper_orchestrator.py line 181). -/
def ingestFingerprint (raw base : String) : String :=
  url_hash (normalize_url raw base)

/-- Content classification status (src/database/models.py `FilterStatus`). -/
inductive FilterStatus where
  | pending
  | approved
  | rejected
deriving DecidableEq, Repr

/-- Python `FilterStatus(s)` conversion: `none` models the `ValueError` raised on an
unknown value. -/
def FilterStatus.ofString? : String → Option FilterStatus
  | "pending" => some .pending
  | "approved" => some .approved
  | "rejected" => some .rejected
  | _ => none

/-- A row of the `scraped_content` table, with the columns the claims are
about (src/database/schema.py lines 17-60). -/
structure ContentRow where
  id : Nat
  url : String
  urlHash : String
  title : Option String := none
  content : String := ""
  county : Option String := none
  contentCategory : Option String := none
  sentiment : Option String := none
  sentimentScore : Option Rat := none
  isEvent : Bool := false
  eventDate : Option String := none
  eventTime : Option String := none
  eventLocation : Option String := none
  summary : Option String := none
  filterStatus : FilterStatus := .pending
  filterReason : Option String := none
  scrapedAt : Int := 0
deriving DecidableEq, Repr

/-- The `scraped_content` table plus its id sequence; the table carries
`CONSTRAINT unique_url_hash UNIQUE (url_hash)` (src/database/schema.py
line 59). -/
structure ContentDB where
  rows : List ContentRow
  nextId : Nat
deriving Repr

/-- Model of `ContentRepository.create` (src/database/repositories/content_repository.py
lines 45-77): `INSERT ... ON CONFLICT (url_hash) DO NOTHING RETURNING id`
returns the fresh id, or `none` when a row with the same fingerprint exists. -/
def ContentRepository.create (db : ContentDB) (row : ContentRow) :
    Option Nat × ContentDB :=
  if db.rows.any fun r => r.urlHash = row.urlHash then
    (none, db)
  else
    (some db.nextId, ⟨db.rows ++ [{ row with id := db.nextId }], db.nextId + 1⟩)

/-- Model of `ContentRepository.create_many` (lines 79-96): insert each row, counting
new and duplicate items. -/
def ContentRepository.create_many (db : ContentDB) (rows : List ContentRow) :
    (Nat × Nat) × ContentDB :=
  rows.foldl
    (fun acc row =>
      let ((newC, dupC), db) := acc
      match ContentRepository.create db row with
      | (some _, db') => ((newC + 1, dupC), db')
      | (none, db') => ((newC, dupC + 1), db'))
    ((0, 0), db)

/-- Following the spec's words (§4.1), for comparison with the source's
normalization: "lower-case, trim, strip tracking parameters (`utm_*`,
`fbclid`, `gclid`, `ref`, `source`), resolve relative paths against the source
base, strip trailing slash", applied in the order listed, so tracking
parameters are matched after lower-casing. -/
def specNormalize (url : String) (base_url : String) : String :=
  let url := strTrim (strLower url)
  let url :=
    if strContains url '?' then
      let parts := strSplitOn url '?'
      let base := parts.headD ""
      let params := strJoin '?' parts.tail
      let clean_params :=
        (strSplitOn params '&').filter fun param =>
          !(trackingParams.any fun t => strStartsWith param t)
      if clean_params ≠ [] then base ++ "?" ++ strJoin '&' clean_params
      else base
    else url
  let url :=
    if strStartsWith url "/" then rstripSlash base_url ++ url
    else if !(strStartsWith url "http://" || strStartsWith url "https://") then
      rstripSlash base_url ++ "/" ++ url
    else url
  rstripSlash url

/-! ## Classification filter (src/services/content_filter.py) -/

/-- Value of one field of the decoded classifier response (the result of
`json.loads`). -/
inductive JVal where
  | jstr (s : String)
  | jnum (q : Rat)
  | jbool (b : Bool)
  | jnull
deriving DecidableEq, Repr

/-- Decoded classifier response: the dictionary produced by `json.loads`. -/
abbrev JObj := List (String × JVal)

/-- Result of `ContentFilterService.filter_content`
(src/database/models.py `FilterResult`). -/
structure FilterResult where
  decision : FilterStatus
  reason : String
  sentiment : String
  sentimentScore : Rat
  isEvent : Bool
  eventDate : Option String := none
  eventTime : Option String := none
  eventLocation : Option String := none
  category : String
  county : Option String := none
  summary : String
deriving DecidableEq, Repr

/-- Python `result_data[k]`: a missing key raises `KeyError`, which the
`except Exception` branch of `filter_content` turns into an error result. -/
def jGet (o : JObj) (k : String) : Except String JVal :=
  match o.lookup k with
  | some v => .ok v
  | none => .error ("KeyError: " ++ k)

/-- Python `result_data.get(k)`: a missing key yields `None`. -/
def jGetOpt (o : JObj) (k : String) : JVal :=
  (o.lookup k).getD .jnull

/-- Coercion of a field to `str` (pydantic validation of a `str` field): a
non-string raises, landing in the `except Exception` branch. -/
def jAsStr (k : String) (v : JVal) : Except String String :=
  match v with
  | .jstr s => .ok s
  | _ => .error ("ValidationError: " ++ k)

/-- Coercion of an optional field to `Optional[str]`. -/
def jAsOptStr (k : String) (v : JVal) : Except String (Option String) :=
  match v with
  | .jnull => .ok none
  | .jstr s => .ok (some s)
  | _ => .error ("ValidationError: " ++ k)

/-- Python `float(v)` for the values a JSON field can hold: numbers and
booleans convert, `None` and non-numeric strings raise.  (Numeric strings are
not modelled; the classifier schema sends a number.) -/
def jAsFloat (k : String) (v : JVal) : Except String Rat :=
  match v with
  | .jnum q => .ok q
  | .jbool b => .ok (if b then 1 else 0)
  | _ => .error ("ValueError: " ++ k)

/-- Python truthiness of a JSON value (`bool(v)`, and the `or` fallback). -/
def jTruthy (v : JVal) : Bool :=
  match v with
  | .jstr s => s ≠ ""
  | .jnum q => q ≠ 0
  | .jbool b => b
  | .jnull => false

/-- Python `FilterStatus(result_data["decision"])` (src/services/content_filter.py
line 162): requires a string naming an enum member; anything else raises. -/
def jAsFilterStatus (v : JVal) : Except String FilterStatus :=
  match v with
  | .jstr s =>
    match FilterStatus.ofString? s with
    | some d => .ok d
    | none => .error "ValueError: decision"
  | _ => .error "ValueError: decision"

/-- Construction of the `FilterResult` from the decoded response
(src/services/content_filter.py lines 161-173).  Any raised `KeyError` /
`ValueError` / pydantic validation error is returned as `Except.error` and
handled by the caller's generic `except Exception` branch. -/
def buildFilterResult (contentCounty : Option String) (o : JObj) :
    Except String FilterResult := do
  let decision ← jGet o "decision" >>= jAsFilterStatus
  let reason ← jGet o "reason" >>= jAsStr "reason"
  let sentiment ← jGet o "sentiment" >>= jAsStr "sentiment"
  let sentimentScore ← jGet o "sentiment_score" >>= jAsFloat "sentiment_score"
  let isEvent ← (fun v => pure (jTruthy v)) =<< jGet o "is_event"
  let eventDate ← jAsOptStr "event_date" (jGetOpt o "event_date")
  let eventTime ← jAsOptStr "event_time" (jGetOpt o "event_time")
  let eventLocation ← jAsOptStr "event_location" (jGetOpt o "event_location")
  let category ← jGet o "category" >>= jAsStr "category"
  -- `result_data.get("county") or content.county`
  let county ←
    if jTruthy (jGetOpt o "county") then
      (fun s => pure (some s)) =<< jAsStr "county" (jGetOpt o "county")
    else pure contentCounty
  let summary ← jGet o "summary" >>= jAsStr "summary"
  pure { decision, reason, sentiment, sentimentScore, isEvent, eventDate,
         eventTime, eventLocation, category, county, summary }

/-- Model of `ContentFilterService._create_error_result`
(src/services/content_filter.py lines 187-201): a rejection carrying the error
text. -/
def create_error_result (contentCounty : Option String) (error : String) :
    FilterResult :=
  { decision := .rejected
    reason := "Error during filtering: " ++ error
    sentiment := "neutral"
    sentimentScore := 1 / 2
    isEvent := false
    eventDate := none
    eventTime := none
    eventLocation := none
    category := "other"
    county := contentCounty
    summary := "" }

/-- Outcome of the guarded classifier call made by `filter_content`: either the
response text decoded by `json.loads`, or one of the exception classes the
`try`/`except` ladder distinguishes.  `circuitOpen` is the
`CircuitBreakerError` raised by the open breaker, `retryExhausted` the
`tenacity.RetryError` after the attempt budget; both land in the generic
`except Exception` branch.  `apiError` is an `anthropic.APIError` surfacing
from the call. -/
inductive ApiOutcome where
  | success (response : JObj)
  | parseFailure (msg : String)
  | apiError (msg : String)
  | retryExhausted (msg : String)
  | circuitOpen (msg : String)
  | otherError (msg : String)
deriving DecidableEq, Repr

/-- Model of `ContentFilterService.filter_content`
(src/services/content_filter.py lines 123-185), as a function of the item's
county tag and of the guarded call's outcome. -/
def filter_content (contentCounty : Option String) (outcome : ApiOutcome) :
    FilterResult :=
  match outcome with
  | .success o =>
    match buildFilterResult contentCounty o with
    | .ok r => r
    | .error msg => create_error_result contentCounty msg
  | .parseFailure msg => create_error_result contentCounty ("JSON parse error: " ++ msg)
  | .apiError msg => create_error_result contentCounty ("API error: " ++ msg)
  | .retryExhausted msg => create_error_result contentCounty msg
  | .circuitOpen msg => create_error_result contentCounty msg
  | .otherError msg => create_error_result contentCounty msg

/-- Substring occurrence, used to state "reason contains (parse error)". -/
def occursIn (pat s : String) : Prop :=
  ∃ a b : List Char, s.data = a ++ (pat.data ++ b)

/-! ## Stable sorting

Python's `sorted` and SQL `ORDER BY` are modelled by a stable insertion sort
over a boolean `le`. -/

/-- Insert an element into a sorted list, before the first element it is `le`
to; later equal elements stay behind it, matching `sorted`'s stability. -/
def insertSorted (le : α → α → Bool) (x : α) : List α → List α
  | [] => [x]
  | y :: ys => if le x y then x :: y :: ys else y :: insertSorted le x ys

/-- Stable insertion sort. -/
def sortBy (le : α → α → Bool) : List α → List α
  | [] => []
  | x :: xs => insertSorted le x (sortBy le xs)

/-- Lexicographic comparison of character lists (Python `<=` on strings; also
the order of SQL `DATE`/`TIME` columns, whose ISO text sorts chronologically). -/
def charListLe : List Char → List Char → Bool
  | [], _ => true
  | _ :: _, [] => false
  | a :: as, b :: bs => if a = b then charListLe as bs else decide (a < b)

/-- String comparison derived from `charListLe`. -/
def strLe (a b : String) : Bool :=
  charListLe a.data b.data

/-! ## Classification pipeline run (src/services/scheduler.py lines 196-229,
src/database/repositories/content_repository.py) -/

/-- Model of `ContentRepository.get_pending_content`
(src/database/repositories/content_repository.py lines 104-113):
`WHERE filter_status = (pending) ORDER BY scraped_at DESC LIMIT limit`. -/
def get_pending_content (db : ContentDB) (limit : Nat) : List ContentRow :=
  ((sortBy (fun a b => decide (b.scrapedAt ≤ a.scrapedAt))
    (db.rows.filter fun r => r.filterStatus = .pending)).take limit)

/-- Model of `ContentRepository.update_filter_result` (lines 115-152): write
the decision and its metadata onto the row with the given id
(`county = COALESCE(result.county, county)`; the `filtered_at`/`updated_at`
timestamps are not modelled). -/
def update_filter_result (db : ContentDB) (contentId : Nat) (r : FilterResult) :
    ContentDB :=
  { db with
    rows := db.rows.map fun row =>
      if row.id = contentId then
        { row with
          filterStatus := r.decision
          filterReason := some r.reason
          sentiment := some r.sentiment
          sentimentScore := some r.sentimentScore
          isEvent := r.isEvent
          eventDate := r.eventDate
          eventTime := r.eventTime
          eventLocation := r.eventLocation
          contentCategory := some r.category
          county := match r.county with
            | some c => some c
            | none => row.county
          summary := some r.summary }
      else row }

/-- Model of `SchedulerService._run_content_filtering`
(src/services/scheduler.py lines 196-229): fetch up to 100 pending items,
classify each (the per-item outcome of `batch_filter` is the input function
`outcomes`), and write each result back with `update_filter_result`. -/
def run_content_filtering (db : ContentDB) (outcomes : Nat → ApiOutcome) :
    ContentDB :=
  let pending := get_pending_content db 100
  pending.foldl
    (fun d row => update_filter_result d row.id (filter_content row.county (outcomes row.id)))
    db

/-! ## Digest-eligible content (src/database/repositories/content_repository.py
lines 154-234) -/

/-- Approved-content view rows handed to the generator
(src/database/models.py `ApprovedContent`). -/
structure ApprovedContent where
  id : Nat
  title : Option String
  summary : String
  url : String
  sourceName : String := ""
  county : Option String
  category : String
  isEvent : Bool
  eventDate : Option String := none
  eventTime : Option String := none
  eventLocation : Option String := none
  content : String
deriving DecidableEq, Repr

/-- A row of `newsletter_content_links`, carrying
`CONSTRAINT unique_newsletter_content UNIQUE(newsletter_id, content_id)`
(src/database/schema.py lines 119-127). -/
structure LinkRow where
  newsletterId : Nat
  contentId : Nat
  sectionTag : String
  displayOrder : Nat
deriving DecidableEq, Repr

/-- Projection of a content row to the `ApprovedContent` view as done by
`get_approved_content` (lines 186-202): `summary or (empty)`,
`content_category or (news)`. -/
def rowToApproved (row : ContentRow) : ApprovedContent :=
  { id := row.id
    title := row.title
    summary := match row.summary with
      | some s => if s = "" then "" else s
      | none => ""
    url := row.url
    county := row.county
    category := match row.contentCategory with
      | some c => if c = "" then "news" else c
      | none => "news"
    isEvent := row.isEvent
    eventDate := row.eventDate
    eventTime := row.eventTime
    eventLocation := row.eventLocation
    content := row.content }

/-- Model of `ContentRepository.get_approved_content`
(src/database/repositories/content_repository.py lines 154-202) with
`exclude_used=True`: approved rows scraped since `now - days`, anti-joined
against `newsletter_content_links`, newest first. -/
def get_approved_content (db : ContentDB) (links : List LinkRow) (now : Int)
    (days : Nat) : List ApprovedContent :=
  let cutoff : Int := now - days
  ((sortBy (fun a b => decide (b.scrapedAt ≤ a.scrapedAt))
      (db.rows.filter fun r =>
        r.filterStatus = .approved ∧ cutoff ≤ r.scrapedAt ∧
          ¬ links.any fun l => l.contentId = r.id)).map rowToApproved)

/-- Projection used by `get_approved_events` (lines 218-234): the category
falls back to (event) and `is_event` is read from the row (always true under
the query's filter). -/
def rowToApprovedEvent (row : ContentRow) : ApprovedContent :=
  { rowToApproved row with
    category := match row.contentCategory with
      | some c => if c = "" then "event" else c
      | none => "event" }

/-- SQL `ORDER BY event_date ASC, event_time ASC` (nulls last, the postgres
default for ascending order). -/
def eventOrderLe (a b : ContentRow) : Bool :=
  let da := a.eventDate.getD ""
  let db := b.eventDate.getD ""
  if da = db then
    match a.eventTime, b.eventTime with
    | some ta, some tb => strLe ta tb
    | some _, none => true
    | none, some _ => false
    | none, none => true
  else strLe da db

/-- Model of `ContentRepository.get_approved_events` (lines 204-234): approved
event rows whose event date lies in `[today, future]`, where `future` stands
for `today + days_ahead` (the calendar arithmetic itself is not re-modelled),
sorted by date then time. -/
def get_approved_events (db : ContentDB) (today future : String) :
    List ApprovedContent :=
  ((sortBy eventOrderLe
      (db.rows.filter fun r =>
        r.filterStatus = .approved && r.isEvent &&
          match r.eventDate with
          | some d => strLe today d && strLe d future
          | none => false)).map rowToApprovedEvent)

/-! ## Content generator (src/services/content_generator.py) -/

/-- Position of a category in `priority_order`
(src/services/content_generator.py line 139); unknown categories score 99. -/
def categoryScore (c : String) : Nat :=
  match c with
  | "event" => 0
  | "announcement" => 1
  | "news" => 2
  | "promotion" => 3
  | "government" => 4
  | "other" => 5
  | _ => 99

/-- Python `0 if item.title else 1` (an absent or empty title scores 1). -/
def hasTitleScore (t : Option String) : Nat :=
  match t with
  | some s => if s = "" then 1 else 0
  | none => 1

/-- Sort key of `_select_top_story` (lines 142-146):
`(has_title, category_score, -len(content))`. -/
def storyScore (i : ApprovedContent) : Nat × Nat × Int :=
  (hasTitleScore i.title, categoryScore i.category, -(i.content.length : Int))

/-- Python tuple `<=` on the sort key (lexicographic). -/
def storyScoreLe (a b : Nat × Nat × Int) : Bool :=
  decide (a.1 < b.1) ||
    (decide (a.1 = b.1) &&
      (decide (a.2.1 < b.2.1) ||
        (decide (a.2.1 = b.2.1) && decide (a.2.2 ≤ b.2.2))))

/-- Model of `ContentGeneratorService._select_top_story` (lines 133-149):
stable-sort by the score tuple and take the head. -/
def select_top_story (content : List ApprovedContent) : Option ApprovedContent :=
  match content with
  | [] => none
  | _ => (sortBy (fun a b => storyScoreLe (storyScore a) (storyScore b)) content).head?

/-- County bucket of `_generate_news_links_section` (lines 187-200):
`county = item.county or (regional)`, unknown tags fall into the regional
bucket. -/
def countyBucket (c : Option String) : String :=
  let county := match c with
    | some s => if s = "" then "regional" else s
    | none => "regional"
  if county = "nash" || county = "edgecombe" || county = "wilson" ||
      county = "regional" then county
  else "regional"

/-- Items rendered by the news-links section (lines 211-230): each county
bucket is truncated to 5 (`county_items[:5]`). -/
def newsLinksRenderedCount (items : List ApprovedContent) : Nat :=
  (["nash", "edgecombe", "wilson", "regional"].map fun c =>
    ((items.filter fun i => countyBucket i.county = c).take 5).length).sum

/-- Entries rendered by the calendar section (lines 236-260): events with a
truthy `event_date`, sorted by date, truncated to 10
(`sorted_events[:10]`). -/
def calendarRenderedCount (events : List ApprovedContent) : Nat :=
  min ((events.filter fun e =>
    match e.eventDate with
    | some d => d ≠ ""
    | none => false).length) 10

/-- Total number of items rendered across the digest's sections: the top
story (when one is selected), the capped county groups over the remaining
items (`[c for c in approved_content if c.id != top.id]`,
src/services/content_generator.py line 102), and the capped calendar. -/
def renderedItemsCount (approved events : List ApprovedContent) : Nat :=
  match select_top_story approved with
  | none => newsLinksRenderedCount approved + calendarRenderedCount events
  | some top =>
    1 + newsLinksRenderedCount (approved.filter fun c => c.id ≠ top.id) +
      calendarRenderedCount events

/-! ## Newsletter builder (src/services/newsletter_builder.py,
src/database/repositories/newsletter_repository.py) -/

/-- Model of `NewsletterRepository.link_content`
(src/database/repositories/newsletter_repository.py lines 158-172):
`INSERT ... ON CONFLICT (newsletter_id, content_id) DO NOTHING`. -/
def link_content (links : List LinkRow) (newsletterId contentId : Nat)
    (sectionTag : String) (displayOrder : Nat) : List LinkRow :=
  if links.any fun l => l.newsletterId = newsletterId ∧ l.contentId = contentId then
    links
  else links ++ [⟨newsletterId, contentId, sectionTag, displayOrder⟩]

/-- The linking loop of `NewsletterBuilderService.build_newsletter`
(src/services/newsletter_builder.py lines 110-121): link every approved item
(tagged top_story or news_links) and then every event (tagged calendar). -/
def buildNewsletterLinks (links : List LinkRow) (newsletterId : Nat)
    (topStorySourceId : Nat) (approved events : List ApprovedContent) :
    List LinkRow :=
  let links := approved.enum.foldl
    (fun ls (p : Nat × ApprovedContent) =>
      let sec := if p.2.id = topStorySourceId then "top_story" else "news_links"
      link_content ls newsletterId p.2.id sec p.1)
    links
  events.enum.foldl
    (fun ls (p : Nat × ApprovedContent) =>
      link_content ls newsletterId p.2.id "calendar" p.1)
    links

/-- Model of `NewsletterBuilderService.build_newsletter` (lines 46-128):
returns `none` when `get_approved_content` yields nothing; otherwise creates a
newsletter row and links the approved items and events to it.
`top_story_source_id` is the selected story's id, or 0 when none
(src/services/content_generator.py line 122).  The rendered HTML and AI
generation outcomes do not affect which items are linked. -/
def build_newsletter (db : ContentDB) (links : List LinkRow)
    (newsletterId : Nat) (now : Int) (lookbackDays : Nat)
    (today future : String) : Option (List LinkRow) :=
  let approved := get_approved_content db links now lookbackDays
  if approved = [] then none
  else
    let events := get_approved_events db today future
    let topId := match select_top_story approved with
      | some top => top.id
      | none => 0
    some (buildNewsletterLinks links newsletterId topId approved events)

/-! ## Delivery state machine (src/services/newsletter_builder.py lines
183-221, src/database/repositories/newsletter_repository.py) -/

/-- Newsletter delivery status (src/database/models.py `NewsletterStatus`). -/
inductive NewsletterStatus where
  | draft
  | previewSent
  | scheduled
  | sent
  | failed
deriving DecidableEq, Repr

/-- A row of `sent_newsletters`, with the columns the claims are about. -/
structure NewsletterRow where
  id : Nat
  status : NewsletterStatus := .draft
  mailchimpCampaignId : Option String := none
  previewSentAt : Option Int := none
  sentAt : Option Int := none
deriving DecidableEq, Repr

/-- The `sent_newsletters` table. -/
structure NewsletterDB where
  rows : List NewsletterRow
deriving DecidableEq, Repr

/-- Model of `NewsletterRepository.get_by_id` (lines 59-63). -/
def NewsletterRepository.get_by_id (ndb : NewsletterDB) (newsletterId : Nat) :
    Option NewsletterRow :=
  ndb.rows.find? fun n => n.id = newsletterId

/-- Model of `NewsletterRepository.update_status` as called with
`sent_at=...` (src/services/newsletter_builder.py lines 206-210). -/
def update_status_sent (ndb : NewsletterDB) (newsletterId : Nat) (now : Int) :
    NewsletterDB :=
  ⟨ndb.rows.map fun n =>
    if n.id = newsletterId then { n with status := .sent, sentAt := some now }
    else n⟩

/-- Model of `NewsletterRepository.update_status` as called with only the
`FAILED` status (src/services/newsletter_builder.py lines 217-220). -/
def update_status_failed (ndb : NewsletterDB) (newsletterId : Nat) :
    NewsletterDB :=
  ⟨ndb.rows.map fun n =>
    if n.id = newsletterId then { n with status := .failed } else n⟩

/-- Outcome of `MailchimpService.send_campaign`
(src/services/mailchimp_service.py lines 218-245): success, or a raised
error. -/
inductive MailOutcome where
  | ok
  | err (msg : String)
deriving DecidableEq, Repr

/-- External email-delivery calls issued during a send, recorded so theorems
can state that no campaign is ever created implicitly. -/
inductive MailAction where
  | createCampaign
  | sendTest
  | sendCampaign (campaignId : String)
deriving DecidableEq, Repr

/-- Model of `NewsletterBuilderService.send_newsletter`
(src/services/newsletter_builder.py lines 183-221): missing newsletter or
missing campaign id fail fast with `False` and no external call; otherwise the
campaign is sent, and the status becomes Sent with a sent timestamp (or Failed
when the collaborator raises). -/
def send_newsletter (ndb : NewsletterDB) (newsletterId : Nat)
    (outcome : MailOutcome) (now : Int) :
    Bool × NewsletterDB × List MailAction :=
  match NewsletterRepository.get_by_id ndb newsletterId with
  | none => (false, ndb, [])
  | some n =>
    match n.mailchimpCampaignId with
    | none => (false, ndb, [])
    | some cid =>
      match outcome with
      | .ok => (true, update_status_sent ndb newsletterId now, [.sendCampaign cid])
      | .err _ => (false, update_status_failed ndb newsletterId, [.sendCampaign cid])

/-! ## Scheduler (src/services/scheduler.py, startup in src/api/app.py) -/

/-- The single `system_state` row with key (scheduler), seeded by the schema
(src/database/schema.py lines 194-203); its jsonb value holds
`pending_newsletter_id`. -/
structure SystemStateDB where
  pendingNewsletterId : Option Nat
deriving DecidableEq, Repr

/-- In-memory state of `SchedulerService`: the tracked pending newsletter id
(src/services/scheduler.py line 36). -/
structure SchedulerService where
  pendingNewsletterId : Option Nat
deriving DecidableEq, Repr

/-- Model of `SchedulerService.__init__` (lines 24-36): the pending id starts
out `None`. -/
def SchedulerService.init : SchedulerService :=
  ⟨none⟩

/-- Model of `SchedulerService._save_state` (lines 51-62): write the tracked
pending id into the durable `system_state` row. -/
def SchedulerService.save_state (svc : SchedulerService) (_db : SystemStateDB) :
    SystemStateDB :=
  ⟨svc.pendingNewsletterId⟩

/-- Model of `SchedulerService._load_state` (lines 38-49): read the pending id
back from the durable row.  This function exists in the source but is never
invoked anywhere in the repository. -/
def SchedulerService.load_state (_svc : SchedulerService) (db : SystemStateDB) :
    SchedulerService :=
  ⟨db.pendingNewsletterId⟩

/-- Model of `SchedulerService.start` (lines 64-112): registers the recurring
cron/interval jobs; it neither reads `system_state` nor touches the pending
id. -/
def SchedulerService.start (svc : SchedulerService) : SchedulerService :=
  svc

/-- Model of `SchedulerService.get_pending_newsletter_id` (lines 257-259). -/
def SchedulerService.get_pending_newsletter_id (svc : SchedulerService) :
    Option Nat :=
  svc.pendingNewsletterId

/-- Process startup as performed by the application lifespan
(src/api/app.py lines 76-78): construct the service and call `start()`.
Nothing in the startup path calls `_load_state`. -/
def schedulerStartup (_db : SystemStateDB) : SchedulerService :=
  SchedulerService.start SchedulerService.init

/-- Observable scheduler actions, recorded in order so that theorems can state
what is persisted before what is armed. -/
inductive SchedAction where
  | persistState (v : Option Nat)
  | armAutoSend
deriving DecidableEq, Repr

/-- Model of `SchedulerService._generate_and_preview_newsletter`
(src/services/scheduler.py lines 120-151) after the builder finished:
`buildResult` is the id returned by `build_and_send_preview` (some id exactly
when the Draft→PreviewSent transition succeeded).  On success the pending id
is stored and persisted, then — when auto-send is configured — the one-shot
send job is armed. -/
def generate_and_preview_newsletter (svc : SchedulerService)
    (db : SystemStateDB) (buildResult : Option Nat) (autoSendAfterPreview : Bool) :
    SchedulerService × SystemStateDB × List SchedAction :=
  match buildResult with
  | none => (svc, db, [])
  | some newsletterId =>
    let svc := ⟨some newsletterId⟩
    let db := svc.save_state db
    if autoSendAfterPreview then
      (svc, db, [.persistState (some newsletterId), .armAutoSend])
    else
      (svc, db, [.persistState (some newsletterId)])

/-- Model of `SchedulerService._send_pending_newsletter` (lines 153-176): when
a pending id is tracked, run the send; whatever boolean the send reports, the
pending id is cleared and the cleared state persisted, and no new send is
armed. -/
def send_pending_newsletter (svc : SchedulerService) (db : SystemStateDB)
    (ndb : NewsletterDB) (outcome : MailOutcome) (now : Int) :
    SchedulerService × SystemStateDB × NewsletterDB × List SchedAction :=
  match svc.pendingNewsletterId with
  | none => (svc, db, ndb, [])
  | some newsletterId =>
    let sent := send_newsletter ndb newsletterId outcome now
    let svc := (⟨none⟩ : SchedulerService)
    let db := svc.save_state db
    (svc, db, sent.2.1, [.persistState none])

/-! ## Circuit breaker (the third-party `circuitbreaker` decorator applied in
`ContentFilterService._call_claude_api`, src/services/content_filter.py lines
101-105, with `failure_threshold=5`, `recovery_timeout=60`,
`expected_exception=anthropic.APIError`; the transient classifier errors are
all `anthropic.APIError` subclasses).  The decorator's semantics are modelled
as a timed state machine: closed until five consecutive expected failures,
then open for the recovery window, then a single half-open probe that closes
the breaker on success and re-opens it (restarting the window) on failure. -/

/-- The decorator's configured thresholds. -/
def cbFailureThreshold : Nat := 5

/-- The decorator's recovery window, in seconds. -/
def cbRecoveryTimeout : Int := 60

/-- Breaker state: consecutive expected-failure count, and the opening time
while open. -/
structure CircuitBreaker where
  failureCount : Nat
  openedAt : Option Int
deriving DecidableEq, Repr

/-- A fresh (closed) breaker. -/
def CircuitBreaker.fresh : CircuitBreaker :=
  ⟨0, none⟩

/-- What one guarded call did: short-circuited without invoking the wrapped
function, or invoked it (recording whether that invocation failed). -/
inductive CircuitResult where
  | shortCircuit
  | invoked (failed : Bool)
deriving DecidableEq, Repr

/-- One guarded call at time `now`; `fails` says whether the wrapped classifier
call would raise an expected (transient) error. -/
def cbCall (cb : CircuitBreaker) (now : Int) (fails : Bool) :
    CircuitResult × CircuitBreaker :=
  match cb.openedAt with
  | some t =>
    if now < t + cbRecoveryTimeout then
      (.shortCircuit, cb)
    else
      -- half-open probe
      if fails then (.invoked true, ⟨cb.failureCount + 1, some now⟩)
      else (.invoked false, ⟨0, none⟩)
  | none =>
    if fails then
      let fc := cb.failureCount + 1
      (.invoked true, ⟨fc, if cbFailureThreshold ≤ fc then some now else none⟩)
    else (.invoked false, ⟨0, none⟩)

/-- Run a sequence of guarded calls, returning the final breaker and the
per-call results. -/
def cbRun (cb : CircuitBreaker) (calls : List (Int × Bool)) :
    CircuitBreaker × List CircuitResult :=
  calls.foldl
    (fun acc call =>
      let (res, cb') := cbCall acc.1 call.1 call.2
      (cb', acc.2 ++ [res]))
    (cb, [])

/-- Eligible pool following the spec's words (§4.3): Approved items scraped
within the lookback window and not yet linked to any prior digest, plus
Approved event items whose event date falls in the horizon. -/
def specEligiblePool (db : ContentDB) (links : List LinkRow) (now : Int)
    (lookbackDays : Nat) (today future : String) : List ApprovedContent :=
  get_approved_content db links now lookbackDays ++
    get_approved_events db today future

/-- Reference characterization of a stable sort's head: the first element of
the list attaining the minimal key, kept for comparison with
`select_top_story`. -/
def firstMinBy (le : α → α → Bool) : List α → Option α
  | [] => none
  | x :: xs =>
    match firstMinBy le xs with
    | none => some x
    | some m => some (if le x m then x else m)

/-- Insertion of one content id as done by the link loop: append unless
already present (the `ON CONFLICT DO NOTHING` of `link_content`, projected to
ids). -/
def addId (ids : List Nat) (i : Nat) : List Nat :=
  if i ∈ ids then ids else ids ++ [i]

/-- Content ids linked to one newsletter. -/
def linkedIds (links : List LinkRow) (newsletterId : Nat) : List Nat :=
  (links.filter fun l => l.newsletterId = newsletterId).map (·.contentId)

/-- The stored record of one scraped article, as assembled by
`ScraperOrchestrator._store_items` (src/services/scraper_orchestrator.py lines
176-195): the scraper put `normalize_url(raw, base)` into `item.url`, and the
stored `url_hash` is `ScrapedItem.url_hash` of that URL.  Fields not involved
in deduplication keep their defaults. -/
def scrapedRow (raw base : String) : ContentRow :=
  { id := 0
    url := normalize_url raw base
    urlHash := ingestFingerprint raw base }

/-- Demo candidates used in concrete witnesses: a long news item, an event,
and a short news item. -/
def demoNews1 : ApprovedContent :=
  { id := 1, title := some "N1", summary := "", url := "",
    county := some "nash", category := "news", isEvent := false,
    content := "long content here" }

/-- Demo event candidate. -/
def demoEvent : ApprovedContent :=
  { id := 2, title := some "E", summary := "", url := "",
    county := some "nash", category := "event", isEvent := true,
    content := "x" }

/-- Demo short news candidate. -/
def demoNews2 : ApprovedContent :=
  { id := 3, title := some "N2", summary := "", url := "",
    county := some "nash", category := "news", isEvent := false,
    content := "zz" }

/-- Demo table for concrete pipeline witnesses: one approved row. -/
def demoApprovedRow : ContentRow :=
  { id := 1, url := "u1", urlHash := "h1", filterStatus := .approved }

/-- Demo pending row. -/
def demoPendingRow : ContentRow :=
  { id := 2, url := "u2", urlHash := "h2" }

/-- Demo content table holding the two rows above. -/
def demoContentDB : ContentDB :=
  ⟨[demoApprovedRow, demoPendingRow], 3⟩

/-- Demo approved row for the digest counterexample: fixed county tag, news
category, content text `c`. -/
def digestDemoRow (i : Nat) (c : String) : ContentRow :=
  { id := i, url := "u", urlHash := "h", title := some "T", content := c,
    county := some "nash", contentCategory := some "news",
    filterStatus := .approved, scrapedAt := 0 }

/-- Seven approved nash-county items, the first with the longest content. -/
def digest7DB : ContentDB :=
  ⟨[digestDemoRow 1 "cccccccc", digestDemoRow 2 "cc", digestDemoRow 3 "cc",
    digestDemoRow 4 "cc", digestDemoRow 5 "cc", digestDemoRow 6 "cc",
    digestDemoRow 7 "cc"], 8⟩

/-! # Theorems

First general-purpose lemmas, then one theorem per specification claim (with a
witness or counterexample where required). -/

/-- Appending strings appends their character lists. -/
theorem strData_append (x y : String) : (x ++ y).data = x.data ++ y.data := rfl

/-- Inversion of the status-enum conversion at `pending`. -/
theorem ofString_pending {s : String}
    (h : FilterStatus.ofString? s = some .pending) : s = "pending" := by
  unfold FilterStatus.ofString? at h
  split at h
  all_goals first | rfl | simp at h

/-- A successfully built filter result carries exactly the decision parsed
from the response's decision field. -/
theorem buildFilterResult_decision (county : Option String) (o : JObj)
    (r : FilterResult) (h : buildFilterResult county o = .ok r) :
    jGet o "decision" >>= jAsFilterStatus = Except.ok r.decision := by
  simp only [buildFilterResult, bind, Except.bind, pure, Except.pure] at h
  repeat' split at h
  all_goals try exact Except.noConfusion h
  all_goals (injection h with h'; subst h'; simp only [bind, Except.bind]; assumption)

/-- Parsing the decision field to `pending` forces the response to literally
hold the string (pending) under the decision key. -/
theorem decision_pending_lookup (o : JObj)
    (h : jGet o "decision" >>= jAsFilterStatus = Except.ok .pending) :
    o.lookup "decision" = some (.jstr "pending") := by
  cases hl : o.lookup "decision" with
  | none => simp [jGet, hl, bind, Except.bind] at h
  | some v =>
    cases v with
    | jstr s =>
      simp only [jGet, hl, bind, Except.bind, jAsFilterStatus] at h
      split at h
      next d heq =>
        injection h with h'
        subst h'
        rw [ofString_pending heq]
      next heq => exact Except.noConfusion h
    | jnum q => simp [jGet, hl, bind, Except.bind, jAsFilterStatus] at h
    | jbool b => simp [jGet, hl, bind, Except.bind, jAsFilterStatus] at h
    | jnull => simp [jGet, hl, bind, Except.bind, jAsFilterStatus] at h

/-- On every successful Draft→PreviewSent transition the scheduler persists
the pending digest id into the durable record before arming the one-shot
timer: the action trace lists the persist first, and the durable record holds
the id. -/
theorem preview_persists_before_arming :
    ∀ (svc : SchedulerService) (db : SystemStateDB) (newsletterId : Nat),
      (generate_and_preview_newsletter svc db (some newsletterId) true).2.2 =
        [SchedAction.persistState (some newsletterId), SchedAction.armAutoSend] ∧
      (generate_and_preview_newsletter svc db (some newsletterId) true).2.1 =
        ⟨some newsletterId⟩ := by
  intro svc db newsletterId
  constructor <;> rfl

/-- C8: the PreviewSent→Sent transition requires an existing campaign
reference id.  (1) With no campaign id on the digest, the send fails with
`false`, the database is untouched, and no external delivery call at all — in
particular no campaign creation — is made.  (2) With a campaign id and a
successful collaborator call, the send returns `true`, issues exactly the
final-send call, and the digest's row ends up Sent with the sent timestamp
recorded. -/
theorem send_requires_campaign_id :
    (∀ (ndb : NewsletterDB) (newsletterId : Nat) (outcome : MailOutcome)
        (now : Int) (n : NewsletterRow),
      NewsletterRepository.get_by_id ndb newsletterId = some n →
      n.mailchimpCampaignId = none →
      send_newsletter ndb newsletterId outcome now = (false, ndb, [])) ∧
    (∀ (ndb : NewsletterDB) (newsletterId : Nat) (now : Int)
        (n : NewsletterRow) (cid : String),
      NewsletterRepository.get_by_id ndb newsletterId = some n →
      n.mailchimpCampaignId = some cid →
      send_newsletter ndb newsletterId .ok now =
        (true, update_status_sent ndb newsletterId now, [.sendCampaign cid]) ∧
      ∀ n' ∈ (update_status_sent ndb newsletterId now).rows,
        n'.id = newsletterId → n'.status = .sent ∧ n'.sentAt = some now) := by
  constructor
  · intro ndb newsletterId outcome now n hfind hcid
    simp [send_newsletter, hfind, hcid]
  · intro ndb newsletterId now n cid hfind hcid
    refine ⟨by simp [send_newsletter, hfind, hcid], ?_⟩
    intro n' hmem hid
    simp only [update_status_sent, List.mem_map] at hmem
    obtain ⟨a, _, rfl⟩ := hmem
    by_cases h : a.id = newsletterId
    · simp [h]
    · rw [if_neg h] at hid
      exact absurd hid h

/-- Witness for `send_requires_campaign_id` at a concrete digest: one without
a campaign id fails closed, one with a campaign id is sent. -/
theorem send_requires_campaign_id_witness :
    send_newsletter ⟨[{ id := 4, status := .previewSent }]⟩ 4 .ok 0 =
      (false, ⟨[{ id := 4, status := .previewSent }]⟩, []) ∧
    send_newsletter
        ⟨[{ id := 5, status := .previewSent, mailchimpCampaignId := some "c9" }]⟩
        5 .ok 7 =
      (true,
        update_status_sent
          ⟨[{ id := 5, status := .previewSent, mailchimpCampaignId := some "c9" }]⟩ 5 7,
        [.sendCampaign "c9"]) := by
  constructor
  · exact send_requires_campaign_id.1 _ 4 .ok 0 { id := 4, status := .previewSent }
      (by decide) (by decide)
  · exact (send_requires_campaign_id.2 _ 5 7
      { id := 5, status := .previewSent, mailchimpCampaignId := some "c9" } "c9"
      (by decide) (by decide)).1

/-- C10: when the armed one-shot auto-send fires for a pending digest, the
scheduler clears the pending id and persists the cleared state whatever
boolean the send reports (including the missing-campaign-reference failure),
and arms no retry. -/
theorem autosend_clears_pending_even_on_failure :
    ∀ (svc : SchedulerService) (db : SystemStateDB) (ndb : NewsletterDB)
      (outcome : MailOutcome) (now : Int) (newsletterId : Nat),
      svc.pendingNewsletterId = some newsletterId →
      (send_pending_newsletter svc db ndb outcome now).1.get_pending_newsletter_id
          = none ∧
      (send_pending_newsletter svc db ndb outcome now).2.1 = ⟨none⟩ ∧
      (send_pending_newsletter svc db ndb outcome now).2.2.2 =
        [SchedAction.persistState none] ∧
      SchedAction.armAutoSend ∉ (send_pending_newsletter svc db ndb outcome now).2.2.2 := by
  intro svc db ndb outcome now newsletterId hpending
  simp [send_pending_newsletter, hpending, SchedulerService.get_pending_newsletter_id,
    SchedulerService.save_state]

/-- Witness for `autosend_clears_pending_even_on_failure` at the
missing-campaign-reference case: digest 3 has no campaign id, the send reports
failure, and the pending id is still cleared and persisted cleared. -/
theorem autosend_clears_pending_witness :
    (send_newsletter ⟨[{ id := 3, status := .previewSent }]⟩ 3 .ok 0).1 = false ∧
    ((send_pending_newsletter ⟨some 3⟩ ⟨some 3⟩
        ⟨[{ id := 3, status := .previewSent }]⟩ .ok 0).1.get_pending_newsletter_id
      = none ∧
    (send_pending_newsletter ⟨some 3⟩ ⟨some 3⟩
        ⟨[{ id := 3, status := .previewSent }]⟩ .ok 0).2.1 = ⟨none⟩ ∧
    (send_pending_newsletter ⟨some 3⟩ ⟨some 3⟩
        ⟨[{ id := 3, status := .previewSent }]⟩ .ok 0).2.2.2 =
      [SchedAction.persistState none] ∧
    SchedAction.armAutoSend ∉ (send_pending_newsletter ⟨some 3⟩ ⟨some 3⟩
        ⟨[{ id := 3, status := .previewSent }]⟩ .ok 0).2.2.2) := by
  refine ⟨by decide, ?_⟩
  exact autosend_clears_pending_even_on_failure ⟨some 3⟩ ⟨some 3⟩
    ⟨[{ id := 3, status := .previewSent }]⟩ .ok 0 3 rfl

/-- C3 (the durability half fails in the code): the preview transition
persists pending digest id 7 before arming the timer, and the durable record
then holds 7; but process startup (src/api/app.py lines 76-78) constructs a
fresh `SchedulerService` and calls `start()` without ever invoking
`_load_state`, so after the simulated restart `get_pending_newsletter_id()`
returns `none`, not 7 — even though the never-called `_load_state` would have
restored it. -/
theorem scheduler_restart_drops_persisted_pending :
    (generate_and_preview_newsletter SchedulerService.init ⟨none⟩ (some 7) true).2.2 =
      [SchedAction.persistState (some 7), SchedAction.armAutoSend] ∧
    (generate_and_preview_newsletter SchedulerService.init ⟨none⟩ (some 7) true).2.1 =
      ⟨some 7⟩ ∧
    SchedulerService.get_pending_newsletter_id (schedulerStartup ⟨some 7⟩) = none ∧
    (SchedulerService.load_state SchedulerService.init ⟨some 7⟩).pendingNewsletterId =
      some 7 := by
  refine ⟨rfl, rfl, rfl, rfl⟩

/-- C6 (amended): digest assembly returns `none` precisely when the
lookback-window portion of the pool — approved, recently scraped, unlinked
items — is empty; upcoming approved events alone do not trigger a build. -/
theorem build_newsletter_none_iff_no_recent_approved :
    ∀ (db : ContentDB) (links : List LinkRow) (newsletterId : Nat) (now : Int)
      (lookbackDays : Nat) (today future : String),
      build_newsletter db links newsletterId now lookbackDays today future = none ↔
        get_approved_content db links now lookbackDays = [] := by
  intro db links newsletterId now lookbackDays today future
  by_cases h : get_approved_content db links now lookbackDays = [] <;>
    simp [build_newsletter, h]

/-- C6 (counterexample): a database holding a single approved upcoming event
scraped 30 days ago.  The spec's eligible pool is nonempty (the event
qualifies), yet `build_newsletter` returns `none` because the lookback portion
is empty. -/
theorem build_newsletter_ignores_event_only_pool :
    build_newsletter
        ⟨[{ id := 1, url := "https://e.com/fair", urlHash := "https://e.com/fair",
            isEvent := true, eventDate := some "2026-10-15",
            filterStatus := .approved, scrapedAt := -30 }], 2⟩
        [] 1 0 7 "2026-10-12" "2026-10-26" = none ∧
    specEligiblePool
        ⟨[{ id := 1, url := "https://e.com/fair", urlHash := "https://e.com/fair",
            isEvent := true, eventDate := some "2026-10-15",
            filterStatus := .approved, scrapedAt := -30 }], 2⟩
        [] 0 7 "2026-10-12" "2026-10-26" ≠ [] := by
  constructor
  · decide
  · decide

/-- C7: (1) five consecutive transient failures from a fresh breaker are all
invoked and leave the breaker open, stamped with the fifth failure's time;
(2) while the cooldown window is running every guarded call short-circuits
without invoking the classifier and leaves the breaker unchanged; (3) once
the window has elapsed the next call is invoked (the single probe); (4) a
failed probe re-opens the breaker at the probe time, so that — by (2) — every
further call within the new window short-circuits again: exactly one probe
gets through per elapsed window. -/
theorem circuit_breaker_spec :
    (∀ t1 t2 t3 t4 t5 : Int,
      (cbRun CircuitBreaker.fresh
          [(t1, true), (t2, true), (t3, true), (t4, true), (t5, true)]).2 =
        [.invoked true, .invoked true, .invoked true, .invoked true, .invoked true] ∧
      (cbRun CircuitBreaker.fresh
          [(t1, true), (t2, true), (t3, true), (t4, true), (t5, true)]).1 =
        ⟨5, some t5⟩) ∧
    (∀ (cb : CircuitBreaker) (t now : Int) (fails : Bool),
      cb.openedAt = some t → now < t + cbRecoveryTimeout →
      cbCall cb now fails = (.shortCircuit, cb)) ∧
    (∀ (cb : CircuitBreaker) (t now : Int) (fails : Bool),
      cb.openedAt = some t → t + cbRecoveryTimeout ≤ now →
      (cbCall cb now fails).1 = .invoked fails) ∧
    (∀ (cb : CircuitBreaker) (t now : Int),
      cb.openedAt = some t → t + cbRecoveryTimeout ≤ now →
      (cbCall cb now true).2 = ⟨cb.failureCount + 1, some now⟩) := by
  refine ⟨?_, ?_, ?_, ?_⟩
  · intro t1 t2 t3 t4 t5
    constructor <;>
      simp [cbRun, cbCall, CircuitBreaker.fresh, cbFailureThreshold]
  · intro cb t now fails hopen hwin
    simp [cbCall, hopen, hwin]
  · intro cb t now fails hopen hwin
    have h : ¬ now < t + cbRecoveryTimeout := by omega
    cases fails <;> simp [cbCall, hopen, h]
  · intro cb t now hopen hwin
    have h : ¬ now < t + cbRecoveryTimeout := by omega
    simp [cbCall, hopen, h]

/-- Witness for `circuit_breaker_spec`: five failures at times 0..4 open the
breaker; a call at time 30 short-circuits; the probe at time 64 is let
through; its failure re-opens the breaker at 64. -/
theorem circuit_breaker_spec_witness :
    ((cbRun CircuitBreaker.fresh
        [(0, true), (1, true), (2, true), (3, true), (4, true)]).1 = ⟨5, some 4⟩) ∧
    cbCall ⟨5, some 4⟩ 30 true = (.shortCircuit, ⟨5, some 4⟩) ∧
    (cbCall ⟨5, some 4⟩ 64 true).1 = .invoked true ∧
    (cbCall ⟨5, some 4⟩ 64 true).2 = ⟨6, some 64⟩ := by
  refine ⟨(circuit_breaker_spec.1 0 1 2 3 4).2, ?_, ?_, ?_⟩
  · exact circuit_breaker_spec.2.1 ⟨5, some 4⟩ 4 30 true rfl (by norm_num [cbRecoveryTimeout])
  · exact circuit_breaker_spec.2.2.1 ⟨5, some 4⟩ 4 64 true rfl (by norm_num [cbRecoveryTimeout])
  · exact circuit_breaker_spec.2.2.2 ⟨5, some 4⟩ 4 64 rfl (by norm_num [cbRecoveryTimeout])

/-- C2 (counterexample): under the spec's normalization order — lower-case
first, then strip tracking parameters — the pair
`https://x.com/a?UTM_source=fb` / `https://x.com/a` has one fingerprint; but
the code matches tracking prefixes case-sensitively before any lower-casing,
so ingesting the pair records the second as new (counts `(2, 0)`), and two
rows persist instead of one. -/
theorem url_normalization_mismatch :
    specNormalize "https://x.com/a?UTM_source=fb" "" =
      specNormalize "https://x.com/a" "" ∧
    (ContentRepository.create_many ⟨[], 1⟩
        [scrapedRow "https://x.com/a?UTM_source=fb" "",
         scrapedRow "https://x.com/a" ""]).1 = (2, 0) ∧
    (ContentRepository.create_many ⟨[], 1⟩
        [scrapedRow "https://x.com/a?UTM_source=fb" "",
         scrapedRow "https://x.com/a" ""]).2.rows.length = 2 := by
  refine ⟨by decide, by decide, by decide⟩

/-- C2 (amended): with the code's fingerprint — trim, resolve against the
base, strip tracking parameters by case-sensitive prefix match, strip the
trailing slash, and lower-case only at hashing time — any two URLs with equal
fingerprints deduplicate: the first ingestion inserts, the second reports
duplicate, and exactly one row with that fingerprint persists. -/
theorem ingest_dedups_equal_fingerprints :
    ∀ (db : ContentDB) (raw1 base1 raw2 base2 : String),
      ingestFingerprint raw1 base1 = ingestFingerprint raw2 base2 →
      (∀ r ∈ db.rows, r.urlHash ≠ ingestFingerprint raw1 base1) →
      (ContentRepository.create db (scrapedRow raw1 base1)).1 = some db.nextId ∧
      (ContentRepository.create
        (ContentRepository.create db (scrapedRow raw1 base1)).2
        (scrapedRow raw2 base2)).1 = none ∧
      ((ContentRepository.create
          (ContentRepository.create db (scrapedRow raw1 base1)).2
          (scrapedRow raw2 base2)).2.rows.filter
        fun r => r.urlHash = ingestFingerprint raw1 base1).length = 1 := by
  intro db raw1 base1 raw2 base2 hfp hfresh
  have hhash1 : (scrapedRow raw1 base1).urlHash = ingestFingerprint raw1 base1 := rfl
  have hany1 : (db.rows.any fun r => r.urlHash = (scrapedRow raw1 base1).urlHash)
      = false := by
    rw [List.any_eq_false]
    intro r hr
    simp only [hhash1, decide_eq_true_eq]
    exact hfresh r hr
  have hstep1 : ContentRepository.create db (scrapedRow raw1 base1) =
      (some db.nextId,
        ⟨db.rows ++ [{ scrapedRow raw1 base1 with id := db.nextId }], db.nextId + 1⟩) := by
    simp [ContentRepository.create, hany1]
  refine ⟨by rw [hstep1], ?_, ?_⟩
  · rw [hstep1]
    have hany2 : ((db.rows ++ [{ scrapedRow raw1 base1 with id := db.nextId }]).any
        fun r => r.urlHash = (scrapedRow raw2 base2).urlHash) = true := by
      rw [List.any_eq_true]
      refine ⟨{ scrapedRow raw1 base1 with id := db.nextId }, by simp, ?_⟩
      simp [scrapedRow, hfp]
    simp [ContentRepository.create, hany2]
  · rw [hstep1]
    have hany2 : ((db.rows ++ [{ scrapedRow raw1 base1 with id := db.nextId }]).any
        fun r => r.urlHash = (scrapedRow raw2 base2).urlHash) = true := by
      rw [List.any_eq_true]
      refine ⟨{ scrapedRow raw1 base1 with id := db.nextId }, by simp, ?_⟩
      simp [scrapedRow, hfp]
    simp only [ContentRepository.create, hany2, if_true]
    rw [List.filter_append]
    have hnil : (db.rows.filter fun r => r.urlHash = ingestFingerprint raw1 base1)
        = [] := by
      rw [List.filter_eq_nil_iff]
      intro r hr
      simp only [decide_eq_true_eq]
      exact hfresh r hr
    rw [hnil]
    simp [scrapedRow]

/-- Witness for `ingest_dedups_equal_fingerprints` at the spec's own example
pair (`utm_source` in lower case, which the code does strip): the first
insert succeeds, the second is a duplicate, one row persists. -/
theorem ingest_dedups_equal_fingerprints_witness :
    (ContentRepository.create ⟨[], 1⟩
      (scrapedRow "https://x.com/a?utm_source=fb" "")).1 = some 1 ∧
    (ContentRepository.create
      (ContentRepository.create ⟨[], 1⟩
        (scrapedRow "https://x.com/a?utm_source=fb" "")).2
      (scrapedRow "https://x.com/a" "")).1 = none ∧
    ((ContentRepository.create
        (ContentRepository.create ⟨[], 1⟩
          (scrapedRow "https://x.com/a?utm_source=fb" "")).2
        (scrapedRow "https://x.com/a" "")).2.rows.filter
      fun r => r.urlHash = ingestFingerprint "https://x.com/a?utm_source=fb" "").length
      = 1 :=
  ingest_dedups_equal_fingerprints ⟨[], 1⟩
    "https://x.com/a?utm_source=fb" "" "https://x.com/a" ""
    (by decide) (by decide)

/-- The error reason produced for a parse failure contains (parse error). -/
theorem parse_error_occurs (msg : String) :
    occursIn "parse error" ("Error during filtering: " ++ ("JSON parse error: " ++ msg)) := by
  refine ⟨"Error during filtering: JSON ".data, ": ".data ++ msg.data, ?_⟩
  rw [strData_append, strData_append]
  have h1 : ("Error during filtering: ".data ++ "JSON parse error: ".data : List Char)
      = "Error during filtering: JSON ".data ++ ("parse error".data ++ ": ".data) := by
    decide
  calc "Error during filtering: ".data ++ ("JSON parse error: ".data ++ msg.data)
      = ("Error during filtering: ".data ++ "JSON parse error: ".data) ++ msg.data := by
        rw [List.append_assoc]
    _ = ("Error during filtering: JSON ".data ++ ("parse error".data ++ ": ".data))
          ++ msg.data := by rw [h1]
    _ = "Error during filtering: JSON ".data ++ ("parse error".data ++ (": ".data
          ++ msg.data)) := by simp [List.append_assoc]

/-- C1 (amended): classification is fail-closed on every error path — circuit
open, retry exhaustion, API error, any other exception give Rejected, and a
response parse failure gives Rejected with a reason containing (parse error) —
but a successfully parsed response is passed through verbatim, so the returned
decision can be Pending in exactly one case: the response's decision field
literally holds the string (pending). -/
theorem filter_content_fail_closed :
    (∀ (county : Option String) (msg : String),
      (filter_content county (.parseFailure msg)).decision = .rejected ∧
      occursIn "parse error" (filter_content county (.parseFailure msg)).reason) ∧
    (∀ (county : Option String) (msg : String),
      (filter_content county (.apiError msg)).decision = .rejected) ∧
    (∀ (county : Option String) (msg : String),
      (filter_content county (.retryExhausted msg)).decision = .rejected) ∧
    (∀ (county : Option String) (msg : String),
      (filter_content county (.circuitOpen msg)).decision = .rejected) ∧
    (∀ (county : Option String) (msg : String),
      (filter_content county (.otherError msg)).decision = .rejected) ∧
    (∀ (county : Option String) (o : JObj),
      (filter_content county (.success o)).decision = .pending →
      o.lookup "decision" = some (.jstr "pending")) := by
  refine ⟨?_, fun _ _ => rfl, fun _ _ => rfl, fun _ _ => rfl, fun _ _ => rfl, ?_⟩
  · intro county msg
    exact ⟨rfl, parse_error_occurs msg⟩
  · intro county o h
    cases hb : buildFilterResult county o with
    | error e =>
      have he : filter_content county (.success o) = create_error_result county e := by
        simp [filter_content, hb]
      rw [he] at h
      exact absurd h (by simp [create_error_result])
    | ok r =>
      have hr : filter_content county (.success o) = r := by
        simp [filter_content, hb]
      rw [hr] at h
      have hd := buildFilterResult_decision county o r hb
      rw [h] at hd
      exact decision_pending_lookup o hd

/-- Witness for `filter_content_fail_closed`: a concrete parse failure is
rejected with (parse error) in the reason, a concrete circuit-open is
rejected, and the pending-passthrough hypothesis is discharged on a concrete
response whose decision field is (pending). -/
theorem filter_content_fail_closed_witness :
    ((filter_content none (.parseFailure "boom")).decision = .rejected ∧
      occursIn "parse error" (filter_content none (.parseFailure "boom")).reason) ∧
    (filter_content (some "nash") (.circuitOpen "circuit open")).decision = .rejected ∧
    ([("decision", JVal.jstr "pending"), ("reason", JVal.jstr "r"),
      ("sentiment", JVal.jstr "neutral"), ("sentiment_score", JVal.jnum (1 / 2)),
      ("is_event", JVal.jbool false), ("category", JVal.jstr "news"),
      ("summary", JVal.jstr "s")].lookup "decision" = some (.jstr "pending")) :=
  ⟨filter_content_fail_closed.1 none "boom",
    filter_content_fail_closed.2.2.2.1 (some "nash") "circuit open",
    filter_content_fail_closed.2.2.2.2.2 (some "nash")
      [("decision", JVal.jstr "pending"), ("reason", JVal.jstr "r"),
       ("sentiment", JVal.jstr "neutral"), ("sentiment_score", JVal.jnum (1 / 2)),
       ("is_event", JVal.jbool false), ("category", JVal.jstr "news"),
       ("summary", JVal.jstr "s")] rfl⟩

/-- C1 (counterexample): a schema-shaped response whose decision field says
(pending) is passed through: `filter_content` returns decision Pending, which
is neither Approved nor Rejected — the item would be written back as pending
and silently re-queued for the next classification pass. -/
theorem filter_content_returns_pending :
    (filter_content (some "nash") (.success
      [("decision", JVal.jstr "pending"), ("reason", JVal.jstr "r"),
       ("sentiment", JVal.jstr "neutral"), ("sentiment_score", JVal.jnum (1 / 2)),
       ("is_event", JVal.jbool false), ("category", JVal.jstr "news"),
       ("summary", JVal.jstr "s")])).decision = .pending ∧
    ¬ ((filter_content (some "nash") (.success
      [("decision", JVal.jstr "pending"), ("reason", JVal.jstr "r"),
       ("sentiment", JVal.jstr "neutral"), ("sentiment_score", JVal.jnum (1 / 2)),
       ("is_event", JVal.jbool false), ("category", JVal.jstr "news"),
       ("summary", JVal.jstr "s")])).decision = .approved ∨
      (filter_content (some "nash") (.success
      [("decision", JVal.jstr "pending"), ("reason", JVal.jstr "r"),
       ("sentiment", JVal.jstr "neutral"), ("sentiment_score", JVal.jnum (1 / 2)),
       ("is_event", JVal.jbool false), ("category", JVal.jstr "news"),
       ("summary", JVal.jstr "s")])).decision = .rejected) := by
  constructor
  · rfl
  · intro hc
    cases hc with
    | inl h => exact FilterStatus.noConfusion (Eq.trans (Eq.symm rfl) h)
    | inr h => exact FilterStatus.noConfusion (Eq.trans (Eq.symm rfl) h)


theorem storyScoreLe_iff (a b : Nat × Nat × Int) :
    storyScoreLe a b = true ↔
      (a.1 < b.1 ∨ (a.1 = b.1 ∧ (a.2.1 < b.2.1 ∨ (a.2.1 = b.2.1 ∧ a.2.2 ≤ b.2.2)))) := by
  simp [storyScoreLe, Bool.or_eq_true, Bool.and_eq_true, decide_eq_true_eq]

theorem storyScoreLe_refl (a : Nat × Nat × Int) : storyScoreLe a a = true := by
  rw [storyScoreLe_iff]
  omega

theorem storyScoreLe_total (a b : Nat × Nat × Int)
    (h : storyScoreLe a b = false) : storyScoreLe b a = true := by
  rw [storyScoreLe_iff]
  rw [← Bool.not_eq_true, storyScoreLe_iff] at h
  omega

theorem storyScoreLe_trans (a b c : Nat × Nat × Int)
    (h1 : storyScoreLe a b = true) (h2 : storyScoreLe b c = true) :
    storyScoreLe a c = true := by
  rw [storyScoreLe_iff] at h1 h2 ⊢
  omega

theorem insertSorted_head (le : α → α → Bool) (x : α) (l : List α) :
    (insertSorted le x l).head? =
      some (match l.head? with
        | none => x
        | some h => if le x h then x else h) := by
  cases l with
  | nil => rfl
  | cons y ys =>
    simp only [insertSorted, List.head?_cons]
    split <;> simp

theorem sortBy_head (le : α → α → Bool) (l : List α) :
    (sortBy le l).head? = firstMinBy le l := by
  induction l with
  | nil => rfl
  | cons x xs ih =>
    simp only [sortBy, firstMinBy, insertSorted_head, ← ih]
    cases h : (sortBy le xs).head? <;> rfl

theorem firstMinBy_eq_none (le : α → α → Bool) (l : List α) :
    firstMinBy le l = none ↔ l = [] := by
  cases l with
  | nil => simp [firstMinBy]
  | cons x xs =>
    simp only [firstMinBy]
    cases h : firstMinBy le xs <;> simp

theorem select_top_story_eq (l : List ApprovedContent) :
    select_top_story l =
      firstMinBy (fun a b => storyScoreLe (storyScore a) (storyScore b)) l := by
  cases l with
  | nil => rfl
  | cons x xs => exact sortBy_head _ _

theorem firstMinBy_min (le : α → α → Bool)
    (hrefl : ∀ a, le a a = true)
    (htot : ∀ a b, le a b = false → le b a = true)
    (htrans : ∀ a b c, le a b = true → le b c = true → le a c = true) :
    ∀ (l : List α) (m : α), firstMinBy le l = some m →
      m ∈ l ∧ ∀ c ∈ l, le m c = true := by
  intro l
  induction l with
  | nil => intro m h; exact absurd h (by simp [firstMinBy])
  | cons x xs ih =>
    intro m h
    simp only [firstMinBy] at h
    cases hx : firstMinBy le xs with
    | none =>
      rw [hx] at h
      injection h with h'
      subst h'
      have hnil : xs = [] := (firstMinBy_eq_none le xs).mp hx
      subst hnil
      refine ⟨List.mem_singleton_self x, ?_⟩
      intro c hc
      rw [List.mem_singleton] at hc
      subst hc
      exact hrefl _
    | some m' =>
      rw [hx] at h
      injection h with h'
      obtain ⟨hmem', hmin'⟩ := ih m' hx
      by_cases hle : le x m' = true
      · rw [if_pos hle] at h'
        subst h'
        refine ⟨List.mem_cons_self x xs, ?_⟩
        intro c hc
        rcases List.mem_cons.mp hc with rfl | hc'
        · exact hrefl _
        · exact htrans x m' c hle (hmin' c hc')
      · rw [if_neg hle] at h'
        subst h'
        refine ⟨List.mem_cons_of_mem x hmem', ?_⟩
        intro c hc
        rcases List.mem_cons.mp hc with rfl | hc'
        · exact htot _ m' (Bool.eq_false_iff.mpr hle)
        · exact hmin' c hc'

theorem firstMinBy_first (le : α → α → Bool) :
    ∀ (l : List α) (m : α), firstMinBy le l = some m →
      ∃ pre post, l = pre ++ m :: post ∧ ∀ c ∈ pre, le c m = false := by
  intro l
  induction l with
  | nil => intro m h; exact absurd h (by simp [firstMinBy])
  | cons x xs ih =>
    intro m h
    simp only [firstMinBy] at h
    cases hx : firstMinBy le xs with
    | none =>
      rw [hx] at h
      injection h with h'
      subst h'
      exact ⟨[], xs, rfl, by simp⟩
    | some m' =>
      rw [hx] at h
      injection h with h'
      by_cases hle : le x m' = true
      · rw [if_pos hle] at h'
        subst h'
        exact ⟨[], xs, rfl, by simp⟩
      · rw [if_neg hle] at h'
        subst h'
        obtain ⟨pre, post, heq, hpre⟩ := ih m' hx
        refine ⟨x :: pre, post, by rw [heq]; rfl, ?_⟩
        intro c hc
        rcases List.mem_cons.mp hc with rfl | hc'
        · exact Bool.eq_false_iff.mpr hle
        · exact hpre c hc'

/-- C9: top-story selection is the stable ascending sort by
`(hasTitle, categoryPriority, -contentLength)` followed by taking the head:
whenever a story is selected it is an element of the candidate list, its score
tuple is less-or-equal to every candidate's, and it is the first candidate
attaining that minimum (every earlier candidate scores strictly greater).
Determinism on identical input order is immediate: the selection is a pure
function of the candidate list. -/
theorem top_story_selection_ranks :
    ∀ (l : List ApprovedContent) (s : ApprovedContent),
      select_top_story l = some s →
      s ∈ l ∧
      (∀ c ∈ l, storyScoreLe (storyScore s) (storyScore c) = true) ∧
      (∃ pre post, l = pre ++ s :: post ∧
        ∀ c ∈ pre, storyScoreLe (storyScore c) (storyScore s) = false) := by
  intro l s h
  rw [select_top_story_eq] at h
  have hmin := firstMinBy_min (fun a b => storyScoreLe (storyScore a) (storyScore b))
    (fun _ => storyScoreLe_refl _) (fun _ _ hf => storyScoreLe_total _ _ hf)
    (fun _ _ _ h1 h2 => storyScoreLe_trans _ _ _ h1 h2) l s h
  exact ⟨hmin.1, hmin.2, firstMinBy_first _ l s h⟩

/-- Witness for `top_story_selection_ranks`: among one long news item, one
event and one short news item, the event is selected (category priority), and
the theorem's conclusions hold at that input. -/
theorem top_story_selection_ranks_witness :
    demoEvent ∈ [demoNews1, demoEvent, demoNews2] ∧
    (∀ c ∈ [demoNews1, demoEvent, demoNews2],
      storyScoreLe (storyScore demoEvent) (storyScore c) = true) ∧
    (∃ pre post, [demoNews1, demoEvent, demoNews2] = pre ++ demoEvent :: post ∧
      ∀ c ∈ pre, storyScoreLe (storyScore c) (storyScore demoEvent) = false) :=
  top_story_selection_ranks [demoNews1, demoEvent, demoNews2] demoEvent (by decide)


/-- Elements of an insertion come from the inserted element or the list. -/
theorem insertSorted_mem (le : α → α → Bool) (x a : α) :
    ∀ l : List α, a ∈ insertSorted le x l → a = x ∨ a ∈ l := by
  intro l
  induction l with
  | nil => intro h; rw [insertSorted, List.mem_singleton] at h; exact Or.inl h
  | cons y ys ih =>
    intro h
    rw [insertSorted] at h
    split at h
    · rcases List.mem_cons.mp h with rfl | h2
      · exact Or.inl rfl
      · exact Or.inr h2
    · rcases List.mem_cons.mp h with rfl | h2
      · exact Or.inr (List.mem_cons_self _ _)
      · rcases ih h2 with e | hm
        · exact Or.inl e
        · exact Or.inr (List.mem_cons_of_mem _ hm)

/-- Sorting permutes, hence preserves membership (one direction suffices). -/
theorem sortBy_mem (le : α → α → Bool) (a : α) :
    ∀ l : List α, a ∈ sortBy le l → a ∈ l := by
  intro l
  induction l with
  | nil => intro h; exact absurd h (by simp [sortBy])
  | cons x xs ih =>
    intro h
    rw [sortBy] at h
    rcases insertSorted_mem le x a _ h with rfl | hm
    · exact List.mem_cons_self _ _
    · exact List.mem_cons_of_mem _ (ih hm)

/-- Rows selected for classification are pending rows of the database. -/
theorem get_pending_mem (db : ContentDB) (limit : Nat) (row : ContentRow)
    (h : row ∈ get_pending_content db limit) :
    row ∈ db.rows ∧ row.filterStatus = .pending := by
  unfold get_pending_content at h
  have h1 := List.take_subset _ _ h
  have h2 := sortBy_mem _ _ _ h1
  rw [List.mem_filter] at h2
  exact ⟨h2.1, by simpa using h2.2⟩

/-- Tracing the per-item write-back loop: every row of the resulting table
comes from a source row with the same id, unchanged unless its id was among
the ids written. -/
theorem fold_update_trace (g : ContentRow → FilterResult) :
    ∀ (l : List ContentRow) (db : ContentDB) (row' : ContentRow),
      row' ∈ (l.foldl (fun d row => update_filter_result d row.id (g row)) db).rows →
      ∃ row, row ∈ db.rows ∧ row'.id = row.id ∧
        (row' = row ∨ row.id ∈ l.map (·.id)) := by
  intro l
  induction l with
  | nil => intro db row' h; exact ⟨row', h, rfl, Or.inl rfl⟩
  | cons p l ih =>
    intro db row' h
    rw [List.foldl_cons] at h
    obtain ⟨row1, h1mem, h1id, h1or⟩ := ih (update_filter_result db p.id (g p)) row' h
    simp only [update_filter_result, List.mem_map] at h1mem
    obtain ⟨row0, h0mem, h0eq⟩ := h1mem
    by_cases hid : row0.id = p.id
    · refine ⟨row0, h0mem, ?_, Or.inr (by simp [hid])⟩
      rw [h1id, ← h0eq, if_pos hid]
    · have he : row1 = row0 := by rw [← h0eq, if_neg hid]
      rw [he] at h1id h1or
      refine ⟨row0, h0mem, h1id, ?_⟩
      rcases h1or with e | hin
      · exact Or.inl e
      · exact Or.inr (by simp only [List.map_cons, List.mem_cons]; exact Or.inr hin)

/-- C4: classification decisions are terminal and one-way.  A pipeline run
never touches a row that is already Approved or Rejected (the row survives
entirely unchanged), and any row whose status does change was Pending before
the run and is Approved or Rejected after it. -/
theorem classification_decisions_terminal :
    ∀ (db : ContentDB) (outcomes : Nat → ApiOutcome) (row row' : ContentRow),
      (db.rows.map (·.id)).Nodup →
      row ∈ db.rows →
      row' ∈ (run_content_filtering db outcomes).rows →
      row'.id = row.id →
      (row.filterStatus ≠ .pending → row' = row) ∧
      (row'.filterStatus ≠ row.filterStatus →
        row.filterStatus = .pending ∧
        (row'.filterStatus = .approved ∨ row'.filterStatus = .rejected)) := by
  intro db outcomes row row' hnodup hrow hrow' hid
  have hinj := List.inj_on_of_nodup_map hnodup
  unfold run_content_filtering at hrow'
  obtain ⟨row0, h0mem, h0id, h0or⟩ := fold_update_trace _ _ db row' hrow'
  have hrow0 : row0 = row := hinj h0mem hrow (by rw [← h0id, hid])
  rw [hrow0] at h0mem h0id h0or
  have hpend_of_mem : row.id ∈ (get_pending_content db 100).map (·.id) →
      row.filterStatus = .pending := by
    intro hin
    rw [List.mem_map] at hin
    obtain ⟨p, hpmem, hpid⟩ := hin
    obtain ⟨hpdb, hppend⟩ := get_pending_mem db 100 p hpmem
    have hp0 : p = row := hinj hpdb h0mem hpid
    rw [← hp0]
    exact hppend
  constructor
  · intro hdec
    rcases h0or with e | hin
    · exact e
    · exact absurd (hpend_of_mem hin) hdec
  · intro hneq
    have hpend : row.filterStatus = .pending := by
      rcases h0or with e | hin
      · exact absurd (by rw [e]) hneq
      · exact hpend_of_mem hin
    refine ⟨hpend, ?_⟩
    cases hst : row'.filterStatus with
    | pending => exact absurd (hst.trans hpend.symm) hneq
    | approved => exact Or.inl rfl
    | rejected => exact Or.inr rfl

/-- Witness for `classification_decisions_terminal` on a two-row database: the
pending row is rejected by the failing classifier while the approved row is
untouched. -/
theorem classification_decisions_terminal_witness :
    (run_content_filtering demoContentDB (fun _ => .otherError "boom")).rows.map
      (·.filterStatus) = [.approved, .rejected] ∧
    demoApprovedRow = demoApprovedRow :=
  ⟨by decide,
    (classification_decisions_terminal demoContentDB (fun _ => .otherError "boom")
      demoApprovedRow demoApprovedRow (by decide) (by decide) (by decide) rfl).1
      (by decide)⟩


/-- One link insertion changes the linked-id list exactly by `addId`. -/
theorem linkedIds_link_content (links : List LinkRow) (nid cid : Nat)
    (sec : String) (ord : Nat) :
    linkedIds (link_content links nid cid sec ord) nid =
      addId (linkedIds links nid) cid := by
  have hmem : (links.any fun l => l.newsletterId = nid ∧ l.contentId = cid) = true ↔
      cid ∈ linkedIds links nid := by
    simp only [List.any_eq_true, linkedIds, List.mem_map, List.mem_filter,
      decide_eq_true_eq]
    constructor
    · rintro ⟨l, hl, h1, h2⟩
      exact ⟨l, ⟨hl, by simpa using h1⟩, h2⟩
    · rintro ⟨l, ⟨hl, h1⟩, h2⟩
      exact ⟨l, hl, by simpa using h1, h2⟩
  unfold link_content addId
  by_cases hc : cid ∈ linkedIds links nid
  · rw [if_pos (hmem.mpr hc), if_pos hc]
  · rw [if_neg (fun h => hc (hmem.mp h)), if_neg hc]
    simp [linkedIds, List.filter_append, List.map_append]

/-- The link loop over a list of items folds `addId` over their ids. -/
theorem linkedIds_fold (nid : Nat) (secf : Nat × ApprovedContent → String) :
    ∀ (items : List (Nat × ApprovedContent)) (links : List LinkRow),
      linkedIds (items.foldl
        (fun ls p => link_content ls nid p.2.id (secf p) p.1) links) nid =
        (items.map (·.2.id)).foldl addId (linkedIds links nid) := by
  intro items
  induction items with
  | nil => intro links; rfl
  | cons p items ih =>
    intro links
    rw [List.foldl_cons, List.map_cons, List.foldl_cons, ih,
      linkedIds_link_content]

/-- Folding `addId` preserves freedom from duplicates. -/
theorem addId_foldl_nodup :
    ∀ (is : List Nat) (ids0 : List Nat), ids0.Nodup → (is.foldl addId ids0).Nodup := by
  intro is
  induction is with
  | nil => intro ids0 h; exact h
  | cons i is ih =>
    intro ids0 h
    rw [List.foldl_cons]
    refine ih _ ?_
    unfold addId
    by_cases hc : i ∈ ids0
    · rwa [if_pos hc]
    · rw [if_neg hc]
      rw [List.nodup_append]
      exact ⟨h, List.nodup_singleton i, by
        intro a ha hai
        rw [List.mem_singleton] at hai
        subst hai
        exact hc ha⟩

/-- Membership after folding `addId`: the accumulated ids plus the folded
ones. -/
theorem addId_foldl_mem :
    ∀ (is : List Nat) (ids0 : List Nat) (j : Nat),
      j ∈ is.foldl addId ids0 ↔ j ∈ ids0 ∨ j ∈ is := by
  intro is
  induction is with
  | nil => intro ids0 j; simp
  | cons i is ih =>
    intro ids0 j
    rw [List.foldl_cons, ih]
    unfold addId
    by_cases hc : i ∈ ids0
    · rw [if_pos hc]
      constructor
      · rintro (h | h)
        · exact Or.inl h
        · exact Or.inr (List.mem_cons_of_mem _ h)
      · rintro (h | h)
        · exact Or.inl h
        · rcases List.mem_cons.mp h with rfl | h2
          · exact Or.inl hc
          · exact Or.inr h2
    · rw [if_neg hc]
      rw [List.mem_append, List.mem_singleton]
      constructor
      · rintro ((h | h) | h)
        · exact Or.inl h
        · exact Or.inr (by rw [h]; exact List.mem_cons_self _ _)
        · exact Or.inr (List.mem_cons_of_mem _ h)
      · rintro (h | h)
        · exact Or.inl (Or.inl h)
        · rcases List.mem_cons.mp h with rfl | h2
          · exact Or.inl (Or.inr rfl)
          · exact Or.inr h2

/-- Projecting ids out of an enumerated list. -/
theorem enum_map_snd_id (l : List ApprovedContent) :
    (l.enum.map fun p => p.2.id) = l.map (·.id) := by
  rw [show (fun p : Nat × ApprovedContent => p.2.id) =
    (fun x : ApprovedContent => x.id) ∘ Prod.snd from rfl]
  rw [← List.map_map, List.enum_map_snd]

/-- C5 (amended): for a digest with no pre-existing links, the
DigestContentLink rows created by assembly hold each pool item id — every
approved item and every event — exactly once: the linked ids are free of
duplicates (no ContentItem is linked to the digest more than once) and an id
is linked iff it belongs to the approved pool or to the events.  The row count
therefore equals the number of distinct pool-item ids, not the rendered count,
which the sections cap (see the counterexample). -/
theorem digest_links_every_pool_item :
    ∀ (prior : List LinkRow) (nid topId : Nat)
      (approved events : List ApprovedContent),
      (∀ l ∈ prior, l.newsletterId ≠ nid) →
      (linkedIds (buildNewsletterLinks prior nid topId approved events) nid).Nodup ∧
      (∀ i, i ∈ linkedIds (buildNewsletterLinks prior nid topId approved events) nid ↔
        (i ∈ approved.map (·.id) ∨ i ∈ events.map (·.id))) := by
  intro prior nid topId approved events hprior
  have hbase : linkedIds prior nid = [] := by
    rw [linkedIds, List.filter_eq_nil_iff.mpr, List.map_nil]
    intro l hl
    simpa using hprior l hl
  have heq : linkedIds (buildNewsletterLinks prior nid topId approved events) nid =
      (events.enum.map (·.2.id)).foldl addId
        ((approved.enum.map (·.2.id)).foldl addId (linkedIds prior nid)) := by
    show linkedIds
      (events.enum.foldl
        (fun ls p => link_content ls nid p.2.id ((fun _ => "calendar") p) p.1)
        (approved.enum.foldl
          (fun ls p => link_content ls nid p.2.id
            ((fun q : Nat × ApprovedContent =>
              if q.2.id = topId then "top_story" else "news_links") p) p.1)
          prior)) nid = _
    rw [linkedIds_fold, linkedIds_fold]
  constructor
  · rw [heq]
    exact addId_foldl_nodup _ _ (addId_foldl_nodup _ _ (by rw [hbase]; exact List.nodup_nil))
  · intro i
    rw [heq, addId_foldl_mem, addId_foldl_mem, hbase, enum_map_snd_id, enum_map_snd_id]
    simp only [List.not_mem_nil, false_or]

/-- Witness for `digest_links_every_pool_item` on a concrete overlapping pool:
two approved items, two events, one shared between the sections. -/
theorem digest_links_every_pool_item_witness :
    (linkedIds (buildNewsletterLinks [] 1 1 [demoNews1, demoEvent]
        [demoEvent, demoNews2]) 1).Nodup ∧
    (∀ i, i ∈ linkedIds (buildNewsletterLinks [] 1 1 [demoNews1, demoEvent]
        [demoEvent, demoNews2]) 1 ↔
      (i ∈ [demoNews1, demoEvent].map (·.id) ∨
        i ∈ [demoEvent, demoNews2].map (·.id))) :=
  digest_links_every_pool_item [] 1 1 [demoNews1, demoEvent] [demoEvent, demoNews2]
    (by simp)

/-- C5 (counterexample): a digest assembled from seven approved items of one
county creates seven link rows, but renders only six items — the top story
plus the county group capped at five — so the link count does not equal the
rendered count. -/
theorem digest_link_count_exceeds_rendered :
    (build_newsletter digest7DB [] 1 0 7 "2026-10-12" "2026-10-26").map List.length
      = some 7 ∧
    renderedItemsCount (get_approved_content digest7DB [] 0 7)
      (get_approved_events digest7DB "2026-10-12" "2026-10-26") = 6 := by
  constructor
  · decide
  · decide

end TwinCounty
